import Mathlib

/-!
labwc: interactive move/resize grab and command-line verbosity

A shallow embedding of `src/interactive.c` (`interactive_begin`) and of the
option loop of `main` in `src/main.c`, with the properties proved about them.

Memory is explicit.  A `Heap` holds the `struct view` objects and the
`struct server` objects; a pointer is an `Option Nat` (`none` is `NULL`, an
index outside the table is a dangling pointer).  Dereferencing a pointer that
is `NULL` or dangling makes the embedded function return `none`.

`labwc.h` is not among the sources.  The types it declares are taken as
follows: the coordinates of `struct wlr_cursor` and of `grab_x`/`grab_y` are
a type parameter `C` (the function only copies them), the remaining fields of
`struct server` are one field `other` of a type parameter `R`, and
`enum cursor_mode` is modelled from the specification.
-/

namespace Labwc

/-! ## Data model -/

/-- A C pointer into one of the tables of the heap: `none` is `NULL`. -/
abbrev Ptr := Option Nat

/-- The C type `uint32_t`. -/
abbrev uint32_t := Fin 4294967296

/-- Modelled from the spec: `enum cursor_mode`, declared in `labwc.h` (absent).
The spec names its values NORMAL, MOVE and RESIZE; NORMAL means no grab. -/
inductive cursor_mode where
  | NORMAL
  | MOVE
  | RESIZE
deriving DecidableEq, Repr

/-- The wlroots `struct wlr_box`, with the four fields `interactive_begin`
initialises. -/
structure wlr_box where
  x : Int
  y : Int
  width : Int
  height : Int
deriving DecidableEq, Repr

/-- The wlroots `struct wlr_cursor`, reduced to the position that
`interactive_begin` reads. -/
structure wlr_cursor (C : Type) where
  x : C
  y : C
deriving DecidableEq, Repr

/-- The fields of `struct view` that `interactive_begin` reads: the back
pointer to the server and the geometry. -/
structure view where
  server : Ptr
  x : Int
  y : Int
  w : Int
  h : Int
deriving DecidableEq, Repr

/-- The `struct server`: the cursor pointer (modelled as the pointed-to object,
`none` for `NULL`), the six fields of the grab record, and every other field
gathered in `other`. -/
structure server (C R : Type) where
  cursor : Option (wlr_cursor C)
  grabbed_view : Ptr
  cursor_mode : cursor_mode
  grab_x : C
  grab_y : C
  grab_box : wlr_box
  resize_edges : uint32_t
  other : R
deriving DecidableEq, Repr

/-- The memory the functions work on: the table of views and the table of
servers. -/
structure Heap (C R : Type) where
  views : List view
  servers : List (server C R)
deriving DecidableEq, Repr

/-- Dereference of a `struct view *`. -/
def Heap.view_at {C R : Type} (hp : Heap C R) (p : Ptr) : Option view :=
  p.bind (fun i => hp.views[i]?)

/-! ## `interactive_begin` (src/interactive.c) -/

/-- The body of `interactive_begin` once `view`, `view->server` and
`server->cursor` have been dereferenced: the six assignments to the server. -/
def begin_server {C R : Type} (s : server C R) (view_ptr : Ptr) (vw : view)
    (cur : wlr_cursor C) (mode : cursor_mode) (edges : uint32_t) : server C R :=
  { s with
    grabbed_view := view_ptr
    cursor_mode := mode
    grab_x := cur.x
    grab_y := cur.y
    grab_box := { x := vw.x, y := vw.y, width := vw.w, height := vw.h }
    resize_edges := edges }

/-- The function `interactive_begin(view, mode, edges)`.  The result is `none`
when the call dereferences a pointer that is `NULL` or dangling (`view`,
`view->server` or `server->cursor`). -/
def interactive_begin {C R : Type} (hp : Heap C R) (view_ptr : Ptr)
    (mode : cursor_mode) (edges : uint32_t) : Option (Heap C R) :=
  match hp.view_at view_ptr with
  | none => none
  | some vw =>
    match vw.server with
    | none => none
    | some sp =>
      match hp.servers[sp]? with
      | none => none
      | some s =>
        match s.cursor with
        | none => none
        | some cur =>
          some { hp with
            servers := hp.servers.set sp (begin_server s view_ptr vw cur mode edges) }

/-- The grab invariant of the spec: `grabbed_view` is non-null iff the mode is
not NORMAL. -/
def grab_invariant {C R : Type} (s : server C R) : Prop :=
  s.grabbed_view ≠ none ↔ s.cursor_mode ≠ cursor_mode.NORMAL

/-- The view `v` lies in the heap and its `server` pointer refers to the
server `s` stored at `sp`, which has the cursor `cur`. -/
structure OnServer {C R : Type} (hp : Heap C R) (v : Nat) (vw : view) (sp : Nat)
    (s : server C R) (cur : wlr_cursor C) : Prop where
  view_ok : hp.views[v]? = some vw
  server_ptr : vw.server = some sp
  server_ok : hp.servers[sp]? = some s
  cursor_ok : s.cursor = some cur

/-! ## The rest of the grab controller (spec sections 4.2 and 4.3)

Only `interactive_begin` is among the sources.  The two other operations of the
grab controller are modelled from the specification, on the same heap, with
integer coordinates. -/

/-- Modelled from the spec: the flag TOP of the edge mask (`enum wlr_edges` of
wlroots, absent); the bit values are those wlroots declares. -/
def WLR_EDGE_TOP : Nat := 1

/-- Modelled from the spec: the flag BOTTOM of the edge mask (`enum wlr_edges`
of wlroots, absent). -/
def WLR_EDGE_BOTTOM : Nat := 2

/-- Modelled from the spec: the flag LEFT of the edge mask (`enum wlr_edges` of
wlroots, absent). -/
def WLR_EDGE_LEFT : Nat := 4

/-- Modelled from the spec: the flag RIGHT of the edge mask (`enum wlr_edges`
of wlroots, absent). -/
def WLR_EDGE_RIGHT : Nat := 8

/-- Modelled from the spec: the test `edges & flag` for an edge present in
`resize_edges` (the resize code is absent). -/
def has_edge (edges : uint32_t) (flag : Nat) : Bool :=
  Nat.land edges.val flag != 0

/-- Modelled from the spec: the LEFT rule of Update (section 4.2, absent from
the sources), `new_x = x + delta.x`, `new_width = width - delta.x`, with the
minimum-size clamp that keeps the right edge anchored. -/
def resize_left (min_w dx : Int) (b : wlr_box) : wlr_box :=
  if b.width - dx < min_w then
    { b with x := b.x + b.width - min_w, width := min_w }
  else
    { b with x := b.x + dx, width := b.width - dx }

/-- Modelled from the spec: the RIGHT rule of Update (section 4.2, absent from
the sources), `new_width = width + delta.x` with `x` unchanged, clamped to the
minimum width with the left edge anchored. -/
def resize_right (min_w dx : Int) (b : wlr_box) : wlr_box :=
  if b.width + dx < min_w then { b with width := min_w }
  else { b with width := b.width + dx }

/-- Modelled from the spec: the TOP rule of Update (section 4.2, absent from
the sources), `new_y = y + delta.y`, `new_height = height - delta.y`, with the
minimum-size clamp that keeps the bottom edge anchored. -/
def resize_top (min_h dy : Int) (b : wlr_box) : wlr_box :=
  if b.height - dy < min_h then
    { b with y := b.y + b.height - min_h, height := min_h }
  else
    { b with y := b.y + dy, height := b.height - dy }

/-- Modelled from the spec: the BOTTOM rule of Update (section 4.2, absent from
the sources), `new_height = height + delta.y` with `y` unchanged, clamped to
the minimum height with the top edge anchored. -/
def resize_bottom (min_h dy : Int) (b : wlr_box) : wlr_box :=
  if b.height + dy < min_h then { b with height := min_h }
  else { b with height := b.height + dy }

/-- Modelled from the spec: the rectangle Update computes in RESIZE mode
(section 4.2, absent from the sources).  It starts from `grab_box` and applies
the rule of each edge present in the mask, LEFT and TOP first, then RIGHT and
BOTTOM on the box already adjusted. -/
def resize_box (min_w min_h : Int) (edges : uint32_t) (grab_box : wlr_box)
    (dx dy : Int) : wlr_box :=
  let b0 := grab_box
  let b1 := if has_edge edges WLR_EDGE_LEFT then resize_left min_w dx b0 else b0
  let b2 := if has_edge edges WLR_EDGE_TOP then resize_top min_h dy b1 else b1
  let b3 := if has_edge edges WLR_EDGE_RIGHT then resize_right min_w dx b2 else b2
  if has_edge edges WLR_EDGE_BOTTOM then resize_bottom min_h dy b3 else b3

/-- Modelled from the spec: the geometry Update commits to the grabbed view
(section 4.2, absent from the sources).  In MOVE mode the position becomes
`grab_box.position + delta` and the size is untouched; in RESIZE mode the
whole rectangle is the one of `resize_box`.  There is no result in NORMAL
mode, where Update must not be called. -/
def update_view {R : Type} (min_w min_h : Int) (s : server Int R) (vw : view)
    (px py : Int) : Option view :=
  let dx := px - s.grab_x
  let dy := py - s.grab_y
  match s.cursor_mode with
  | cursor_mode.NORMAL => none
  | cursor_mode.MOVE =>
    some { vw with x := s.grab_box.x + dx, y := s.grab_box.y + dy }
  | cursor_mode.RESIZE =>
    let b := resize_box min_w min_h s.resize_edges s.grab_box dx dy
    some { vw with x := b.x, y := b.y, w := b.width, h := b.height }

/-- Modelled from the spec: the operation Update(cursor_pos) of section 4.2
(absent from the sources), on the server at `sp`, with the configured minimum
size as parameters.  The result is `none` when the server pointer or the
grabbed view does not resolve, or when the mode is NORMAL. -/
def interactive_update {R : Type} (min_w min_h : Int) (hp : Heap Int R)
    (sp : Nat) (px py : Int) : Option (Heap Int R) :=
  match hp.servers[sp]? with
  | none => none
  | some s =>
    match s.grabbed_view with
    | none => none
    | some v =>
      match hp.views[v]? with
      | none => none
      | some vw =>
        match update_view min_w min_h s vw px py with
        | none => none
        | some vw1 => some { hp with views := hp.views.set v vw1 }

/-- Modelled from the spec: the effect of End on the grab record (section 4.3,
absent from the sources): the mode becomes NORMAL and `grabbed_view` is
cleared. -/
def end_server {C R : Type} (s : server C R) : server C R :=
  { s with cursor_mode := cursor_mode.NORMAL, grabbed_view := none }

/-- Modelled from the spec: the operation End() of section 4.3 (absent from
the sources), on the server at `sp`.  The result is `none` only when the
server pointer does not resolve. -/
def interactive_end {C R : Type} (hp : Heap C R) (sp : Nat) : Option (Heap C R) :=
  match hp.servers[sp]? with
  | none => none
  | some s => some { hp with servers := hp.servers.set sp (end_server s) }

/-! ## The option loop of `main` (src/main.c) -/

/-- The wlroots `enum wlr_log_importance`. -/
inductive wlr_log_importance where
  | WLR_SILENT
  | WLR_ERROR
  | WLR_INFO
  | WLR_DEBUG
deriving DecidableEq, Repr

/-- One result of `getopt_long` other than the final -1: the returned
character and the value of `optarg` at that point. -/
structure parsed_option where
  c : Char
  optarg : Option String
deriving DecidableEq, Repr

/-- The variables the option loop of `main` assigns: three locals and
`rc.config_dir`. -/
structure main_vars where
  startup_cmd : Option String
  config_file : Option String
  verbosity : wlr_log_importance
  config_dir : Option String
deriving DecidableEq, Repr

/-- A call of `exit`: the text written to standard output before it and the
exit status. -/
structure exit_call where
  out : String
  status : Nat
deriving DecidableEq, Repr

/-- The text of `labwc_usage`. -/
def labwc_usage : String :=
  "Usage: labwc [options...]\n" ++
  "  -c, --config <file>      Specify config file (with path)\n" ++
  "  -C, --config-dir <dir>   Specify config directory\n" ++
  "  -d, --debug              Enable full logging, including debug information\n" ++
  "  -h, --help               Show help message and quit\n" ++
  "  -s, --startup <command>  Run command on startup\n" ++
  "  -v, --version            Show version number and quit\n" ++
  "  -V, --verbose            Enable more verbose logging\n"

/-- The function `usage`: prints `labwc_usage` and exits with status 0. -/
def usage : exit_call :=
  { out := labwc_usage, status := 0 }

/-- The state of `main` on entry to the option loop: `startup_cmd` and
`config_file` are `NULL`, `verbosity` is `WLR_ERROR`, and `rc` is zeroed. -/
def main_init : main_vars :=
  { startup_cmd := none
    config_file := none
    verbosity := wlr_log_importance.WLR_ERROR
    config_dir := none }

/-- The `switch (c)` of `main`, for one option.  `version` stands for the
macro `LABWC_VERSION`, which the sources do not define. -/
def main_switch (version : String) (o : parsed_option) (st : main_vars) :
    Except exit_call main_vars :=
  if o.c = 'c' then Except.ok { st with config_file := o.optarg }
  else if o.c = 'C' then Except.ok { st with config_dir := o.optarg }
  else if o.c = 'd' then Except.ok { st with verbosity := wlr_log_importance.WLR_DEBUG }
  else if o.c = 's' then Except.ok { st with startup_cmd := o.optarg }
  else if o.c = 'v' then Except.error { out := "labwc " ++ version ++ "\n", status := 0 }
  else if o.c = 'V' then Except.ok { st with verbosity := wlr_log_importance.WLR_INFO }
  else Except.error usage

/-- The `while (1)` loop of `main` over the successive results of
`getopt_long`; the end of the list is the result -1. -/
def main_loop (version : String) : List parsed_option → main_vars →
    Except exit_call main_vars
  | [], st => Except.ok st
  | o :: rest, st =>
    match main_switch version o st with
    | Except.error e => Except.error e
    | Except.ok st1 => main_loop version rest st1

/-- The function `main` up to its call of `wlr_log_init`: the option loop, the
test `optind < argc`, and then the verbosity passed to `wlr_log_init`. -/
def main_log_init (version : String) (opts : List parsed_option)
    (optind argc : Nat) : Except exit_call wlr_log_importance :=
  match main_loop version opts main_init with
  | Except.error e => Except.error e
  | Except.ok st =>
    if optind < argc then Except.error usage
    else Except.ok st.verbosity

/-! ## Concrete states -/

/-- A view at (10, 10) of size 100 x 50 on the server 0. -/
def view0 : view :=
  { server := some 0, x := 10, y := 10, w := 100, h := 50 }

/-- A second view on the server 0. -/
def view1 : view :=
  { server := some 0, x := 200, y := 120, w := 64, h := 48 }

/-- A cursor at (3, 4). -/
def cursor0 : wlr_cursor Int :=
  { x := 3, y := 4 }

/-- An idle server: no grab, cursor at (3, 4). -/
def server0 : server Int Unit :=
  { cursor := some cursor0
    grabbed_view := none
    cursor_mode := cursor_mode.NORMAL
    grab_x := 0
    grab_y := 0
    grab_box := { x := 0, y := 0, width := 0, height := 0 }
    resize_edges := 0
    other := () }

/-- A heap with two views and one idle server. -/
def heap0 : Heap Int Unit :=
  { views := [view0, view1], servers := [server0] }

/-- A server in RESIZE mode on view 0, grabbed at the cursor position (0, 0)
with the box (10, 10, 100, 50) and the given edge mask. -/
def server_resize (edges : uint32_t) : server Int Unit :=
  { cursor := some { x := 0, y := 0 }
    grabbed_view := some 0
    cursor_mode := cursor_mode.RESIZE
    grab_x := 0
    grab_y := 0
    grab_box := { x := 10, y := 10, width := 100, height := 50 }
    resize_edges := edges
    other := () }

/-- A heap in the middle of a resize of view 0 with the given edge mask. -/
def heap_resize (edges : uint32_t) : Heap Int Unit :=
  { views := [view0, view1], servers := [server_resize edges] }

/-- The option `-d`. -/
def opt_d : parsed_option :=
  { c := 'd', optarg := none }

/-- The option `-V`. -/
def opt_V : parsed_option :=
  { c := 'V', optarg := none }

/-- Closed form of a call whose pointers are all valid. -/
theorem interactive_begin_eq {C R : Type} {hp : Heap C R} {v : Nat} {vw : view}
    {sp : Nat} {s : server C R} {cur : wlr_cursor C}
    (ok : OnServer hp v vw sp s cur) (mode : cursor_mode) (edges : uint32_t) :
    interactive_begin hp (some v) mode edges =
      some { hp with
        servers := hp.servers.set sp (begin_server s (some v) vw cur mode edges) } := by
  simp [interactive_begin, Heap.view_at, ok.view_ok, ok.server_ptr, ok.server_ok,
    ok.cursor_ok]

/-- After a store at a valid index, the table holds the stored value there. -/
theorem table_set_get {α : Type} {l : List α} {sp : Nat}
    {s : α} (h : l[sp]? = some s) (t : α) :
    (l.set sp t)[sp]? = some t := by
  have hlt : sp < l.length := by
    rcases List.getElem?_eq_some_iff.mp h with ⟨hlt, _⟩
    exact hlt
  simp [List.getElem?_set_self hlt]


/-- Storing twice at the same place of the server table keeps the last store. -/
theorem begin_server_twice {C R : Type} (s : server C R) (p1 p2 : Ptr)
    (vw1 vw2 : view) (cur : wlr_cursor C) (m1 m2 : cursor_mode)
    (e1 e2 : uint32_t) :
    begin_server (begin_server s p1 vw1 cur m1 e1) p2 vw2 cur m2 e2 =
      begin_server s p2 vw2 cur m2 e2 := by
  simp [begin_server]

/-- A call with valid pointers leaves the pointers of every view on the same
server valid, now referring to the updated server. -/
theorem OnServer.after_begin {C R : Type} {hp : Heap C R} {v1 v2 : Nat}
    {vw1 vw2 : view} {sp : Nat} {s : server C R} {cur : wlr_cursor C}
    (ok1 : OnServer hp v1 vw1 sp s cur) (ok2 : OnServer hp v2 vw2 sp s cur)
    (m : cursor_mode) (e : uint32_t) :
    OnServer
      { hp with servers := hp.servers.set sp (begin_server s (some v1) vw1 cur m e) }
      v2 vw2 sp (begin_server s (some v1) vw1 cur m e) cur where
  view_ok := ok2.view_ok
  server_ptr := ok2.server_ptr
  server_ok := table_set_get ok1.server_ok _
  cursor_ok := by simp [begin_server, ok1.cursor_ok]

/-! ## Properties of `interactive_begin` -/

/-- C1: postcondition of `interactive_begin`.  For a view of the heap whose
server has a cursor, the call returns a heap in which that server has
`grabbed_view` equal to the view, `cursor_mode` equal to the mode, `grab_x` and
`grab_y` equal to the cursor position, `grab_box` equal to the rectangle of the
view, and `resize_edges` equal to the edge mask. -/
theorem interactive_begin_post {C R : Type} (hp : Heap C R) (v : Nat) (vw : view)
    (sp : Nat) (s : server C R) (cur : wlr_cursor C) (mode : cursor_mode)
    (edges : uint32_t) (ok : OnServer hp v vw sp s cur) :
    ∃ hp1 s1, interactive_begin hp (some v) mode edges = some hp1 ∧
      hp1.servers[sp]? = some s1 ∧
      s1.grabbed_view = some v ∧
      s1.cursor_mode = mode ∧
      s1.grab_x = cur.x ∧ s1.grab_y = cur.y ∧
      s1.grab_box = { x := vw.x, y := vw.y, width := vw.w, height := vw.h } ∧
      s1.resize_edges = edges :=
  ⟨_, _, interactive_begin_eq ok mode edges, table_set_get ok.server_ok _,
    rfl, rfl, rfl, rfl, rfl, rfl⟩

/-- Witness of C1 on the heap `heap0`: view 0 grabbed for a resize with the
mask 8. -/
theorem interactive_begin_post_witness :
    ∃ hp1 s1, interactive_begin heap0 (some 0) cursor_mode.RESIZE 8 = some hp1 ∧
      hp1.servers[0]? = some s1 ∧
      s1.grabbed_view = some 0 ∧
      s1.cursor_mode = cursor_mode.RESIZE ∧
      s1.grab_x = 3 ∧ s1.grab_y = 4 ∧
      s1.grab_box = { x := 10, y := 10, width := 100, height := 50 } ∧
      s1.resize_edges = 8 :=
  interactive_begin_post heap0 0 view0 0 server0 cursor0 cursor_mode.RESIZE 8
    ⟨rfl, rfl, rfl, rfl⟩

/-- C2: a re-entrant Begin fully replaces the previous grab.  For two views on
the same server, `interactive_begin` on the first returns a heap,
`interactive_begin` on the second then returns a heap, that heap is the one
`interactive_begin` on the second alone returns from the initial heap, and in
it each of `grabbed_view`, `cursor_mode`, `grab_x`, `grab_y`, `grab_box` and
`resize_edges` holds the value of the second grab. -/
theorem interactive_begin_reentrant {C R : Type} (hp : Heap C R) (v1 v2 : Nat)
    (vw1 vw2 : view) (sp : Nat) (s : server C R) (cur : wlr_cursor C)
    (m1 m2 : cursor_mode) (e1 e2 : uint32_t)
    (ok1 : OnServer hp v1 vw1 sp s cur) (ok2 : OnServer hp v2 vw2 sp s cur) :
    ∃ hp1 hp2 s2,
      interactive_begin hp (some v1) m1 e1 = some hp1 ∧
      interactive_begin hp1 (some v2) m2 e2 = some hp2 ∧
      interactive_begin hp (some v2) m2 e2 = some hp2 ∧
      hp2.servers[sp]? = some s2 ∧
      s2.grabbed_view = some v2 ∧
      s2.cursor_mode = m2 ∧
      s2.grab_x = cur.x ∧ s2.grab_y = cur.y ∧
      s2.grab_box = { x := vw2.x, y := vw2.y, width := vw2.w, height := vw2.h } ∧
      s2.resize_edges = e2 := by
  have hsecond : interactive_begin
      { views := hp.views,
        servers := hp.servers.set sp (begin_server s (some v1) vw1 cur m1 e1) }
      (some v2) m2 e2 =
      some { views := hp.views,
             servers := hp.servers.set sp (begin_server s (some v2) vw2 cur m2 e2) } := by
    rw [interactive_begin_eq (ok1.after_begin ok2 m1 e1) m2 e2]
    simp [begin_server_twice, List.set_set]
  exact ⟨_, _, _, interactive_begin_eq ok1 m1 e1, hsecond,
    interactive_begin_eq ok2 m2 e2, table_set_get ok2.server_ok _,
    rfl, rfl, rfl, rfl, rfl, rfl⟩

/-- Witness of C2 on the heap `heap0`: a move of view 0 with the mask 9
replaced by a resize of view 1 with the mask 6. -/
theorem interactive_begin_reentrant_witness :
    ∃ hp1 hp2 s2,
      interactive_begin heap0 (some 0) cursor_mode.MOVE 9 = some hp1 ∧
      interactive_begin hp1 (some 1) cursor_mode.RESIZE 6 = some hp2 ∧
      interactive_begin heap0 (some 1) cursor_mode.RESIZE 6 = some hp2 ∧
      hp2.servers[0]? = some s2 ∧
      s2.grabbed_view = some 1 ∧
      s2.cursor_mode = cursor_mode.RESIZE ∧
      s2.grab_x = 3 ∧ s2.grab_y = 4 ∧
      s2.grab_box = { x := 200, y := 120, width := 64, height := 48 } ∧
      s2.resize_edges = 6 :=
  interactive_begin_reentrant heap0 0 1 view0 view1 0 server0 cursor0
    cursor_mode.MOVE cursor_mode.RESIZE 9 6 ⟨rfl, rfl, rfl, rfl⟩ ⟨rfl, rfl, rfl, rfl⟩

/-- C3: Begin establishes the grab invariant.  Whatever the prior state of the
server, after `interactive_begin` with a mode other than NORMAL the mode is
not NORMAL, `grabbed_view` is non-null, and the grab invariant holds. -/
theorem interactive_begin_invariant {C R : Type} (hp : Heap C R) (v : Nat)
    (vw : view) (sp : Nat) (s : server C R) (cur : wlr_cursor C)
    (mode : cursor_mode) (edges : uint32_t) (ok : OnServer hp v vw sp s cur)
    (hmode : mode = cursor_mode.MOVE ∨ mode = cursor_mode.RESIZE) :
    ∃ hp1 s1, interactive_begin hp (some v) mode edges = some hp1 ∧
      hp1.servers[sp]? = some s1 ∧
      s1.cursor_mode ≠ cursor_mode.NORMAL ∧
      s1.grabbed_view ≠ none ∧
      grab_invariant s1 := by
  have hne : mode ≠ cursor_mode.NORMAL := by
    rcases hmode with h | h <;> simp [h]
  refine ⟨_, _, interactive_begin_eq ok mode edges, table_set_get ok.server_ok _,
    ?_, ?_, ?_⟩
  · simpa [begin_server] using hne
  · simp [begin_server]
  · simp [grab_invariant, begin_server, hne]

/-- Witness of C3 on the heap `heap0`. -/
theorem interactive_begin_invariant_witness :
    ∃ hp1 s1, interactive_begin heap0 (some 1) cursor_mode.MOVE 0 = some hp1 ∧
      hp1.servers[0]? = some s1 ∧
      s1.cursor_mode ≠ cursor_mode.NORMAL ∧
      s1.grabbed_view ≠ none ∧
      grab_invariant s1 :=
  interactive_begin_invariant heap0 1 view1 0 server0 cursor0 cursor_mode.MOVE 0
    ⟨rfl, rfl, rfl, rfl⟩ (Or.inl rfl)

/-- C4: `interactive_begin` only writes the grab record.  The table of views
(so the geometry of every view) is the same after the call, the server keeps
its cursor and all its fields outside the grab record, and the other servers
are untouched. -/
theorem interactive_begin_frame {C R : Type} (hp : Heap C R) (v : Nat) (vw : view)
    (sp : Nat) (s : server C R) (cur : wlr_cursor C) (mode : cursor_mode)
    (edges : uint32_t) (ok : OnServer hp v vw sp s cur) :
    ∃ hp1 s1, interactive_begin hp (some v) mode edges = some hp1 ∧
      hp1.views = hp.views ∧
      hp1.views[v]? = some vw ∧
      hp1.servers[sp]? = some s1 ∧
      s1.cursor = some cur ∧
      s1.other = s.other ∧
      hp1.servers.length = hp.servers.length ∧
      ∀ j, j ≠ sp → hp1.servers[j]? = hp.servers[j]? := by
  refine ⟨_, _, interactive_begin_eq ok mode edges, rfl, ok.view_ok,
    table_set_get ok.server_ok _, ?_, rfl, ?_, ?_⟩
  · simp [begin_server, ok.cursor_ok]
  · simp
  · intro j hj
    simp [List.getElem?_set_ne (Ne.symm hj)]

/-- Witness of C4 on the heap `heap0`. -/
theorem interactive_begin_frame_witness :
    ∃ hp1 s1, interactive_begin heap0 (some 0) cursor_mode.MOVE 12 = some hp1 ∧
      hp1.views = heap0.views ∧
      hp1.views[0]? = some view0 ∧
      hp1.servers[0]? = some s1 ∧
      s1.cursor = some cursor0 ∧
      s1.other = server0.other ∧
      hp1.servers.length = heap0.servers.length ∧
      ∀ j, j ≠ 0 → hp1.servers[j]? = heap0.servers[j]? :=
  interactive_begin_frame heap0 0 view0 0 server0 cursor0 cursor_mode.MOVE 12
    ⟨rfl, rfl, rfl, rfl⟩

/-- C5, as the claim states it, fails: on `heap0`, a move of view 0 begun with
the empty mask and one begun with the mask 1 give different heaps. -/
theorem interactive_begin_move_edges_differ :
    interactive_begin heap0 (some 0) cursor_mode.MOVE 0 ≠
      interactive_begin heap0 (some 0) cursor_mode.MOVE 1 := by
  decide

/-- C5, amended: with the mode MOVE, two calls of `interactive_begin` that
differ only in the edge mask write servers that are equal except for
`resize_edges`, which holds the mask of the call. -/
theorem interactive_begin_move_edges {C R : Type} (hp : Heap C R) (v : Nat)
    (vw : view) (sp : Nat) (s : server C R) (cur : wlr_cursor C)
    (e1 e2 : uint32_t) (ok : OnServer hp v vw sp s cur) :
    ∃ s1 s2,
      interactive_begin hp (some v) cursor_mode.MOVE e1 =
        some { hp with servers := hp.servers.set sp s1 } ∧
      interactive_begin hp (some v) cursor_mode.MOVE e2 =
        some { hp with servers := hp.servers.set sp s2 } ∧
      s1.resize_edges = e1 ∧ s2.resize_edges = e2 ∧
      s2 = { s1 with resize_edges := e2 } :=
  ⟨_, _, interactive_begin_eq ok cursor_mode.MOVE e1,
    interactive_begin_eq ok cursor_mode.MOVE e2, rfl, rfl, rfl⟩

/-- Witness of the amended C5 on the heap `heap0`, with the masks 0 and 1. -/
theorem interactive_begin_move_edges_witness :
    ∃ s1 s2,
      interactive_begin heap0 (some 0) cursor_mode.MOVE 0 =
        some { heap0 with servers := heap0.servers.set 0 s1 } ∧
      interactive_begin heap0 (some 0) cursor_mode.MOVE 1 =
        some { heap0 with servers := heap0.servers.set 0 s2 } ∧
      s1.resize_edges = 0 ∧ s2.resize_edges = 1 ∧
      s2 = { s1 with resize_edges := 1 } :=
  interactive_begin_move_edges heap0 0 view0 0 server0 cursor0 0 1
    ⟨rfl, rfl, rfl, rfl⟩

/-- C6: `interactive_begin` has no failure path.  For a view of the heap that
refers to a server of the heap which has a cursor, the call returns a heap,
whatever the mode, the edge mask and the prior grab state. -/
theorem interactive_begin_succeeds {C R : Type} (hp : Heap C R) (v : Nat)
    (vw : view) (sp : Nat) (s : server C R) (cur : wlr_cursor C)
    (mode : cursor_mode) (edges : uint32_t) (ok : OnServer hp v vw sp s cur) :
    ∃ hp1, interactive_begin hp (some v) mode edges = some hp1 :=
  ⟨_, interactive_begin_eq ok mode edges⟩

/-- Witness of C6 on the heap `heap0`, with the mode NORMAL. -/
theorem interactive_begin_succeeds_witness :
    ∃ hp1, interactive_begin heap0 (some 1) cursor_mode.NORMAL 15 = some hp1 :=
  interactive_begin_succeeds heap0 1 view1 0 server0 cursor0 cursor_mode.NORMAL 15
    ⟨rfl, rfl, rfl, rfl⟩

/-! ## Properties of the modelled Update and End -/

/-- Storing at a valid index the value already there leaves the table as it
is. -/
theorem table_set_same {α : Type} {l : List α} {i : Nat} {a : α}
    (h : l[i]? = some a) : l.set i a = l := by
  apply List.ext_getElem?
  intro j
  by_cases hj : i = j
  · subst hj
    rw [table_set_get h a, h]
  · rw [List.getElem?_set_ne hj]

/-- Closed form of Update in MOVE mode. -/
theorem interactive_update_move {R : Type} (min_w min_h : Int) {hp : Heap Int R}
    {sp v : Nat} {s : server Int R} {vw : view} (px py : Int)
    (hs : hp.servers[sp]? = some s) (hm : s.cursor_mode = cursor_mode.MOVE)
    (hg : s.grabbed_view = some v) (hv : hp.views[v]? = some vw) :
    interactive_update min_w min_h hp sp px py =
      some { hp with
        views := hp.views.set v
          { vw with x := s.grab_box.x + (px - s.grab_x),
                    y := s.grab_box.y + (py - s.grab_y) } } := by
  simp [interactive_update, hs, hg, hv, update_view, hm]

/-- Closed form of Update in RESIZE mode. -/
theorem interactive_update_resize {R : Type} (min_w min_h : Int) {hp : Heap Int R}
    {sp v : Nat} {s : server Int R} {vw : view} (px py : Int)
    (hs : hp.servers[sp]? = some s) (hm : s.cursor_mode = cursor_mode.RESIZE)
    (hg : s.grabbed_view = some v) (hv : hp.views[v]? = some vw) :
    interactive_update min_w min_h hp sp px py =
      some { hp with
        views := hp.views.set v
          { vw with
            x := (resize_box min_w min_h s.resize_edges s.grab_box
              (px - s.grab_x) (py - s.grab_y)).x,
            y := (resize_box min_w min_h s.resize_edges s.grab_box
              (px - s.grab_x) (py - s.grab_y)).y,
            w := (resize_box min_w min_h s.resize_edges s.grab_box
              (px - s.grab_x) (py - s.grab_y)).width,
            h := (resize_box min_w min_h s.resize_edges s.grab_box
              (px - s.grab_x) (py - s.grab_y)).height } } := by
  simp [interactive_update, hs, hg, hv, update_view, hm]

/-- Closed form of End on a valid server pointer. -/
theorem interactive_end_eq {C R : Type} {hp : Heap C R} {sp : Nat}
    {s : server C R} (hs : hp.servers[sp]? = some s) :
    interactive_end hp sp =
      some { hp with servers := hp.servers.set sp (end_server s) } := by
  simp [interactive_end, hs]

/-- The rectangle of a resize by the right edge alone, without clamp. -/
theorem resize_box_right (min_w min_h : Int) (e : uint32_t) (gb : wlr_box)
    (dx dy : Int) (he : e.val = WLR_EDGE_RIGHT) (hmin : min_w ≤ gb.width + dx) :
    resize_box min_w min_h e gb dx dy = { gb with width := gb.width + dx } := by
  have hl : has_edge e WLR_EDGE_LEFT = false := by unfold has_edge; rw [he]; rfl
  have ht : has_edge e WLR_EDGE_TOP = false := by unfold has_edge; rw [he]; rfl
  have hr : has_edge e WLR_EDGE_RIGHT = true := by unfold has_edge; rw [he]; rfl
  have hb : has_edge e WLR_EDGE_BOTTOM = false := by unfold has_edge; rw [he]; rfl
  have hnot : ¬ (gb.width + dx < min_w) := not_lt.mpr hmin
  simp [resize_box, hl, ht, hr, hb, resize_right, hnot]

/-- The rectangle of a resize by the left edge alone, without clamp. -/
theorem resize_box_left (min_w min_h : Int) (e : uint32_t) (gb : wlr_box)
    (dx dy : Int) (he : e.val = WLR_EDGE_LEFT) (hmin : min_w ≤ gb.width - dx) :
    resize_box min_w min_h e gb dx dy =
      { gb with x := gb.x + dx, width := gb.width - dx } := by
  have hl : has_edge e WLR_EDGE_LEFT = true := by unfold has_edge; rw [he]; rfl
  have ht : has_edge e WLR_EDGE_TOP = false := by unfold has_edge; rw [he]; rfl
  have hr : has_edge e WLR_EDGE_RIGHT = false := by unfold has_edge; rw [he]; rfl
  have hb : has_edge e WLR_EDGE_BOTTOM = false := by unfold has_edge; rw [he]; rfl
  have hnot : ¬ (gb.width - dx < min_w) := not_lt.mpr hmin
  simp [resize_box, hl, ht, hr, hb, resize_left, hnot]

/-- C7: MOVE has no cumulative drift.  After Begin(MOVE), Update(p1),
Update(p2) and End, each of which returns a heap, the view is at the position
of the grab box plus (p2 minus the grab cursor position), which is the
position of the view at Begin plus (p2 minus the cursor position at Begin),
with the size it had at Begin; p1 does not occur in the result. -/
theorem move_no_drift {R : Type} (min_w min_h : Int) (hp : Heap Int R) (v : Nat)
    (vw : view) (sp : Nat) (s : server Int R) (cur : wlr_cursor Int)
    (edges : uint32_t) (p1x p1y p2x p2y : Int)
    (ok : OnServer hp v vw sp s cur) :
    ∃ h1 h2 h3 h4 s4,
      interactive_begin hp (some v) cursor_mode.MOVE edges = some h1 ∧
      interactive_update min_w min_h h1 sp p1x p1y = some h2 ∧
      interactive_update min_w min_h h2 sp p2x p2y = some h3 ∧
      interactive_end h3 sp = some h4 ∧
      h4.servers[sp]? = some s4 ∧
      s4.grab_box = { x := vw.x, y := vw.y, width := vw.w, height := vw.h } ∧
      s4.grab_x = cur.x ∧ s4.grab_y = cur.y ∧
      h4.views[v]? =
        some { vw with x := s4.grab_box.x + (p2x - s4.grab_x),
                       y := s4.grab_box.y + (p2y - s4.grab_y) } ∧
      h4.views[v]? =
        some { server := vw.server, x := vw.x + (p2x - cur.x),
               y := vw.y + (p2y - cur.y), w := vw.w, h := vw.h } := by
  have e1 := interactive_begin_eq ok cursor_mode.MOVE edges
  generalize hs1 : begin_server s (some v) vw cur cursor_mode.MOVE edges = s1 at e1
  have hm : s1.cursor_mode = cursor_mode.MOVE := by rw [← hs1]; rfl
  have hg : s1.grabbed_view = some v := by rw [← hs1]; rfl
  have hb : s1.grab_box = { x := vw.x, y := vw.y, width := vw.w, height := vw.h } := by
    rw [← hs1]; rfl
  have hx : s1.grab_x = cur.x := by rw [← hs1]; rfl
  have hy : s1.grab_y = cur.y := by rw [← hs1]; rfl
  have hsrv : (hp.servers.set sp s1)[sp]? = some s1 := table_set_get ok.server_ok s1
  have e2 : interactive_update min_w min_h
      { views := hp.views, servers := hp.servers.set sp s1 } sp p1x p1y =
      some { views := hp.views.set v
               { vw with x := s1.grab_box.x + (p1x - s1.grab_x),
                         y := s1.grab_box.y + (p1y - s1.grab_y) },
             servers := hp.servers.set sp s1 } :=
    interactive_update_move min_w min_h p1x p1y hsrv hm hg ok.view_ok
  have e3 : interactive_update min_w min_h
      { views := hp.views.set v
          { vw with x := s1.grab_box.x + (p1x - s1.grab_x),
                    y := s1.grab_box.y + (p1y - s1.grab_y) },
        servers := hp.servers.set sp s1 } sp p2x p2y =
      some { views := hp.views.set v
               { vw with x := s1.grab_box.x + (p2x - s1.grab_x),
                         y := s1.grab_box.y + (p2y - s1.grab_y) },
             servers := hp.servers.set sp s1 } := by
    rw [interactive_update_move min_w min_h p2x p2y hsrv hm hg
      (table_set_get ok.view_ok _)]
    simp only [List.set_set]
  have e4 : interactive_end
      { views := hp.views.set v
          { vw with x := s1.grab_box.x + (p2x - s1.grab_x),
                    y := s1.grab_box.y + (p2y - s1.grab_y) },
        servers := hp.servers.set sp s1 } sp =
      some { views := hp.views.set v
               { vw with x := s1.grab_box.x + (p2x - s1.grab_x),
                         y := s1.grab_box.y + (p2y - s1.grab_y) },
             servers := (hp.servers.set sp s1).set sp (end_server s1) } :=
    interactive_end_eq hsrv
  refine ⟨_, _, _, _, _, e1, e2, e3, e4, table_set_get hsrv _, hb, hx, hy, ?_, ?_⟩
  · exact table_set_get ok.view_ok _
  · simp only [hb, hx, hy]
    exact table_set_get ok.view_ok _

/-- Witness of C7 on the heap `heap0`: view 0 at (10, 10), cursor at (3, 4),
dragged through (500, 600) to (13, 24), ends at (20, 30) with its size. -/
theorem move_no_drift_witness :
    ∃ h1 h2 h3 h4 s4,
      interactive_begin heap0 (some 0) cursor_mode.MOVE 0 = some h1 ∧
      interactive_update 1 1 h1 0 500 600 = some h2 ∧
      interactive_update 1 1 h2 0 13 24 = some h3 ∧
      interactive_end h3 0 = some h4 ∧
      h4.servers[0]? = some s4 ∧
      s4.grab_box = { x := 10, y := 10, width := 100, height := 50 } ∧
      s4.grab_x = 3 ∧ s4.grab_y = 4 ∧
      h4.views[0]? =
        some { view0 with x := s4.grab_box.x + (13 - s4.grab_x),
                          y := s4.grab_box.y + (24 - s4.grab_y) } ∧
      h4.views[0]? =
        some { server := some 0, x := 10 + (13 - 3), y := 10 + (24 - 4),
               w := 100, h := 50 } :=
  move_no_drift 1 1 heap0 0 view0 0 server0 cursor0 0 500 600 13 24
    ⟨rfl, rfl, rfl, rfl⟩

/-- C8: edge-aware resize.  In RESIZE mode, when no minimum-size clamp is
triggered, Update with the mask RIGHT commits (x, y, width + delta.x, height)
of the grab box, and Update with the mask LEFT commits
(x + delta.x, y, width - delta.x, height). -/
theorem update_resize_right_left :
    (∀ (R : Type) (min_w min_h : Int) (hp : Heap Int R) (sp v : Nat)
      (s : server Int R) (vw : view) (px py : Int),
      hp.servers[sp]? = some s → s.cursor_mode = cursor_mode.RESIZE →
      s.grabbed_view = some v → hp.views[v]? = some vw →
      s.resize_edges.val = WLR_EDGE_RIGHT →
      min_w ≤ s.grab_box.width + (px - s.grab_x) →
      interactive_update min_w min_h hp sp px py =
        some { hp with
          views := hp.views.set v
            { vw with x := s.grab_box.x, y := s.grab_box.y,
                      w := s.grab_box.width + (px - s.grab_x),
                      h := s.grab_box.height } }) ∧
    (∀ (R : Type) (min_w min_h : Int) (hp : Heap Int R) (sp v : Nat)
      (s : server Int R) (vw : view) (px py : Int),
      hp.servers[sp]? = some s → s.cursor_mode = cursor_mode.RESIZE →
      s.grabbed_view = some v → hp.views[v]? = some vw →
      s.resize_edges.val = WLR_EDGE_LEFT →
      min_w ≤ s.grab_box.width - (px - s.grab_x) →
      interactive_update min_w min_h hp sp px py =
        some { hp with
          views := hp.views.set v
            { vw with x := s.grab_box.x + (px - s.grab_x), y := s.grab_box.y,
                      w := s.grab_box.width - (px - s.grab_x),
                      h := s.grab_box.height } }) := by
  constructor
  · intro R min_w min_h hp sp v s vw px py hs hm hg hv he hmin
    rw [interactive_update_resize min_w min_h px py hs hm hg hv]
    rw [resize_box_right min_w min_h _ _ _ _ he hmin]
  · intro R min_w min_h hp sp v s vw px py hs hm hg hv he hmin
    rw [interactive_update_resize min_w min_h px py hs hm hg hv]
    rw [resize_box_left min_w min_h _ _ _ _ he hmin]

/-- Witness of C8, the example of the spec: box (10, 10, 100, 50), grab cursor
(0, 0), Update((30, 0)) gives (10, 10, 130, 50) for RIGHT and (40, 10, 70, 50)
for LEFT. -/
theorem update_resize_right_left_witness :
    interactive_update 1 1 (heap_resize 8) 0 30 0 =
      some { heap_resize 8 with
        views := [{ server := some 0, x := 10, y := 10, w := 130, h := 50 }, view1] } ∧
    interactive_update 1 1 (heap_resize 4) 0 30 0 =
      some { heap_resize 4 with
        views := [{ server := some 0, x := 40, y := 10, w := 70, h := 50 }, view1] } :=
  ⟨update_resize_right_left.1 Unit 1 1 (heap_resize 8) 0 0 (server_resize 8) view0 30 0
      rfl rfl rfl rfl rfl (by decide),
    update_resize_right_left.2 Unit 1 1 (heap_resize 4) 0 0 (server_resize 4) view0 30 0
      rfl rfl rfl rfl rfl (by decide)⟩

/-- C9: End resets the grab and is idempotent.  For every state, End returns
a heap in which the mode is NORMAL and `grabbed_view` is none, with the table
of views (so the geometry of every view) unchanged, and End applied to that
result returns it again.  For every state of the grab record, that is one in
which `grabbed_view` is non-null iff the mode is not NORMAL, whose mode is
already NORMAL, End returns the heap unchanged. -/
theorem interactive_end_reset :
    (∀ (C R : Type) (hp : Heap C R) (sp : Nat) (s : server C R),
      hp.servers[sp]? = some s →
      ∃ hp1 s1, interactive_end hp sp = some hp1 ∧
        hp1.servers[sp]? = some s1 ∧
        s1.cursor_mode = cursor_mode.NORMAL ∧
        s1.grabbed_view = none ∧
        s1.cursor = s.cursor ∧ s1.grab_x = s.grab_x ∧ s1.grab_y = s.grab_y ∧
        s1.grab_box = s.grab_box ∧ s1.resize_edges = s.resize_edges ∧
        s1.other = s.other ∧
        hp1.views = hp.views ∧
        interactive_end hp1 sp = some hp1) ∧
    (∀ (C R : Type) (hp : Heap C R) (sp : Nat) (s : server C R),
      hp.servers[sp]? = some s → grab_invariant s →
      s.cursor_mode = cursor_mode.NORMAL →
      interactive_end hp sp = some hp) := by
  constructor
  · intro C R hp sp s hs
    have hget : (hp.servers.set sp (end_server s))[sp]? = some (end_server s) :=
      table_set_get hs _
    have hagain : interactive_end
        { views := hp.views, servers := hp.servers.set sp (end_server s) } sp =
        some { views := hp.views,
               servers := (hp.servers.set sp (end_server s)).set sp
                 (end_server (end_server s)) } :=
      interactive_end_eq hget
    refine ⟨_, _, interactive_end_eq hs, hget, rfl, rfl, rfl, rfl, rfl, rfl, rfl,
      rfl, rfl, ?_⟩
    rw [hagain]
    simp [List.set_set, end_server]
  · intro C R hp sp s hs hinv hm
    have hg : s.grabbed_view = none := by
      by_contra hne
      exact (hinv.mp hne) hm
    have hfix : end_server s = s := by
      cases s
      simp_all [end_server]
    rw [interactive_end_eq hs, hfix, table_set_same hs]

/-- Witness of C9: End on the heap `heap_resize 8`, in the middle of a resize,
resets the grab; End on the heap `heap0`, whose server is idle, returns
`heap0`. -/
theorem interactive_end_reset_witness :
    (∃ hp1 s1, interactive_end (heap_resize 8) 0 = some hp1 ∧
      hp1.servers[0]? = some s1 ∧
      s1.cursor_mode = cursor_mode.NORMAL ∧
      s1.grabbed_view = none ∧
      s1.cursor = (server_resize 8).cursor ∧ s1.grab_x = 0 ∧ s1.grab_y = 0 ∧
      s1.grab_box = { x := 10, y := 10, width := 100, height := 50 } ∧
      s1.resize_edges = 8 ∧
      s1.other = () ∧
      hp1.views = [view0, view1] ∧
      interactive_end hp1 0 = some hp1) ∧
    interactive_end heap0 0 = some heap0 :=
  ⟨interactive_end_reset.1 Int Unit (heap_resize 8) 0 (server_resize 8) rfl,
    interactive_end_reset.2 Int Unit heap0 0 server0 rfl
      (by simp [grab_invariant, server0]) rfl⟩

/-! ## Properties of the option loop of `main` -/

/-- The loop over a concatenation runs the loop over the first part and, when
that part does not exit, continues with the second part. -/
theorem main_loop_append (version : String) (a b : List parsed_option)
    (st : main_vars) :
    main_loop version (a ++ b) st =
      match main_loop version a st with
      | Except.error e => Except.error e
      | Except.ok st1 => main_loop version b st1 := by
  induction a generalizing st with
  | nil => simp [main_loop]
  | cons o rest ih =>
    simp only [List.cons_append, main_loop]
    cases main_switch version o st with
    | error e => rfl
    | ok st1 => exact ih st1

/-- The case `d` of the switch sets the verbosity to `WLR_DEBUG`. -/
theorem main_switch_d (version : String) (o : parsed_option) (st : main_vars)
    (hc : o.c = 'd') :
    main_switch version o st =
      Except.ok { st with verbosity := wlr_log_importance.WLR_DEBUG } := by
  simp [main_switch, hc]

/-- An option other than `V` that does not exit keeps a verbosity of
`WLR_DEBUG`. -/
theorem main_switch_keeps_debug (version : String) (o : parsed_option)
    (st st1 : main_vars) (hc : o.c ≠ 'V')
    (hv : st.verbosity = wlr_log_importance.WLR_DEBUG)
    (h : main_switch version o st = Except.ok st1) :
    st1.verbosity = wlr_log_importance.WLR_DEBUG := by
  unfold main_switch at h
  split_ifs at h <;> first
    | contradiction
    | (cases h; first | exact hv | rfl)

/-- Options without `V`, when the loop does not exit, keep a verbosity of
`WLR_DEBUG`. -/
theorem main_loop_keeps_debug (version : String) (post : List parsed_option)
    (st st1 : main_vars) (hpost : ∀ o ∈ post, o.c ≠ 'V')
    (hv : st.verbosity = wlr_log_importance.WLR_DEBUG)
    (h : main_loop version post st = Except.ok st1) :
    st1.verbosity = wlr_log_importance.WLR_DEBUG := by
  induction post generalizing st with
  | nil =>
    simp only [main_loop, Except.ok.injEq] at h
    rw [← h]; exact hv
  | cons o rest ih =>
    simp only [main_loop] at h
    cases hsw : main_switch version o st with
    | error e => rw [hsw] at h; exact absurd h (by simp)
    | ok st2 =>
      rw [hsw] at h
      exact ih st2 (fun o1 ho1 => hpost o1 (List.mem_cons_of_mem _ ho1))
        (main_switch_keeps_debug version o st st2
          (hpost o (List.mem_cons_self _ _)) hv hsw) h

/-- C10, as the claim states it, fails: the options `-d -V`, with no leftover
argument, contain `d`, do not make `main` exit, and the verbosity passed to
`wlr_log_init` is `WLR_INFO`. -/
theorem main_debug_then_verbose :
    opt_d ∈ [opt_d, opt_V] ∧
      main_log_init "0.7.0" [opt_d, opt_V] 3 3 =
        Except.ok wlr_log_importance.WLR_INFO ∧
      wlr_log_importance.WLR_INFO ≠ wlr_log_importance.WLR_DEBUG := by
  refine ⟨by decide, rfl, by decide⟩

/-- C10, amended: when the parsed options contain a `d` that no `V` follows,
and `main` does not exit during option handling, the verbosity passed to
`wlr_log_init` is `WLR_DEBUG`. -/
theorem main_debug_verbosity (version : String) (pre post : List parsed_option)
    (o : parsed_option) (optind argc : Nat)
    (hd : o.c = 'd') (hpost : ∀ o1 ∈ post, o1.c ≠ 'V')
    (hrun : ∃ lv, main_log_init version (pre ++ o :: post) optind argc = Except.ok lv) :
    main_log_init version (pre ++ o :: post) optind argc =
      Except.ok wlr_log_importance.WLR_DEBUG := by
  obtain ⟨lv, hrun⟩ := hrun
  rw [hrun]
  unfold main_log_init at hrun
  rw [main_loop_append] at hrun
  cases hpre : main_loop version pre main_init with
  | error e => rw [hpre] at hrun; exact absurd hrun (by simp)
  | ok st1 =>
    rw [hpre] at hrun
    simp only [main_loop, main_switch_d version o st1 hd] at hrun
    cases hrest : main_loop version post
        { st1 with verbosity := wlr_log_importance.WLR_DEBUG } with
    | error e => rw [hrest] at hrun; exact absurd hrun (by simp)
    | ok st2 =>
      rw [hrest] at hrun
      have hv2 := main_loop_keeps_debug version post _ st2 hpost rfl hrest
      split_ifs at hrun
      simp only [Except.ok.injEq] at hrun
      rw [← hrun, hv2]

/-- Witness of the amended C10: the options `-V -d -c rc.xml`, with no
leftover argument. -/
theorem main_debug_verbosity_witness :
    main_log_init "0.7.0"
        ([opt_V] ++ opt_d :: [{ c := 'c', optarg := some "rc.xml" }]) 5 5 =
      Except.ok wlr_log_importance.WLR_DEBUG :=
  main_debug_verbosity "0.7.0" [opt_V]
    [{ c := 'c', optarg := some "rc.xml" }] opt_d 5 5
    rfl (by decide) ⟨wlr_log_importance.WLR_DEBUG, rfl⟩

end Labwc
